import Mathlib

set_option maxRecDepth 8000

/-!
Verification development for the algo-trading repository.

The definitions below are a shallow embedding of the computational core:
`src/utils.py` (indicator engine), `src/strategy.py` (signal backtester and
metrics aggregator) and `src/ml_model.py` (feature/label pipeline and
classifier wrapper).  Prices, volumes and money amounts are modelled as
rationals; a pandas/numpy non-numeric cell (NaN or an infinity arising from a
zero division) is modelled as `none` in an `Option` type.
-/

/- ## Indicator engine (src/utils.py) -/

/-- Positional access to the Close column of a price series. -/
def closeAt (c : List ℚ) (i : ℕ) : ℚ := c.getD i 0

/-- Series.diff(): per-bar price delta, undefined (NaN) at index 0. -/
def deltaAt (c : List ℚ) (i : ℕ) : Option ℚ :=
  if i = 0 then none else some (closeAt c i - closeAt c (i - 1))

/-- delta.where(delta > 0, 0): keep positive deltas, everything else becomes 0.
A NaN delta compares false against 0, so index 0 also becomes 0. -/
def gainAt (c : List ℚ) (i : ℕ) : ℚ :=
  match deltaAt c i with
  | none => 0
  | some d => if 0 < d then d else 0

/-- (-delta).where(delta < 0, 0): magnitudes of negative deltas, else 0. -/
def lossAt (c : List ℚ) (i : ℕ) : ℚ :=
  match deltaAt c i with
  | none => 0
  | some d => if d < 0 then -d else 0

/-- Series.rolling(window=w).mean() over a series with no missing values:
defined from index w-1 on (pandas default min_periods equals the window). -/
def rollMean (x : ℕ → ℚ) (w : ℕ) (i : ℕ) : Option ℚ :=
  if w ≤ i + 1 then
    some (((List.range w).foldl (fun acc j => acc + x (i + 1 - w + j)) 0) / (w : ℚ))
  else none

/-- Trailing 14-bar average gain of calculate_rsi. -/
def avgGain (c : List ℚ) (i : ℕ) : Option ℚ := rollMean (gainAt c) 14 i

/-- Trailing 14-bar average loss of calculate_rsi. -/
def avgLoss (c : List ℚ) (i : ℕ) : Option ℚ := rollMean (lossAt c) 14 i

/-- calculate_rsi (src/utils.py lines 5-11): rs = gain/loss and
rsi = 100 - 100/(1+rs), with float semantics at the boundary: a zero average
loss with positive gain gives rs = infinity and rsi = 100, while a zero
average loss with zero average gain gives the non-numeric 0/0 (none). -/
def calculate_rsi (c : List ℚ) (i : ℕ) : Option ℚ :=
  match avgGain c i, avgLoss c i with
  | some g, some l =>
      if l = 0 then (if g = 0 then none else some 100)
      else some (100 - 100 / (1 + g / l))
  | _, _ => none

/-- One column of calculate_moving_averages: w-bar simple mean of close. -/
def maAt (c : List ℚ) (w i : ℕ) : Option ℚ := rollMean (closeAt c) w i

/-- MA20 column. -/
def ma20 (c : List ℚ) (i : ℕ) : Option ℚ := maAt c 20 i

/-- MA50 column. -/
def ma50 (c : List ℚ) (i : ℕ) : Option ℚ := maAt c 50 i

/-- Series.ewm(span=s).mean() with the pandas defaults (adjust=True, seeded by
the first value): weighted mean of the prefix with ratio r = 1 - 2/(s+1). -/
def ewmMean (s : ℕ) (x : ℕ → ℚ) (i : ℕ) : ℚ :=
  let r : ℚ := ((s : ℚ) - 1) / ((s : ℚ) + 1)
  (((List.range (i + 1)).foldl (fun acc j => acc + r ^ (i - j) * x j) 0) /
   ((List.range (i + 1)).foldl (fun acc j => acc + r ^ j) 0))

/-- MACD line of calculate_macd: EMA(span 12) minus EMA(span 26) of close. -/
def macd (c : List ℚ) (i : ℕ) : ℚ := ewmMean 12 (closeAt c) i - ewmMean 26 (closeAt c) i

/-- MACD signal line: EMA(span 9) of the MACD line. -/
def macdSignal (c : List ℚ) (i : ℕ) : ℚ := ewmMean 9 (macd c) i

/-- MACD histogram: MACD minus its signal line. -/
def macdHistogram (c : List ℚ) (i : ℕ) : ℚ := macd c i - macdSignal c i

/- ## Feature/label pipeline (src/ml_model.py, MLPredictor.prepare_features) -/

/-- Positional access to the Volume column. -/
def volAt (v : List ℚ) (i : ℕ) : ℚ := v.getD i 0

/-- Series.pct_change(): (close i - close (i-1)) / close (i-1), undefined at
index 0; a zero previous close gives a non-numeric float result (none). -/
def pctChange (c : List ℚ) (i : ℕ) : Option ℚ :=
  if i = 0 then none
  else if closeAt c (i - 1) = 0 then none
  else some ((closeAt c i - closeAt c (i - 1)) / closeAt c (i - 1))

/-- Next_Day_Return column: pct_change().shift(-1), so row i carries the
percent change of row i+1 and the final row is undefined. -/
def nextDayReturn (c : List ℚ) (i : ℕ) : Option ℚ :=
  if i + 1 < c.length then pctChange c (i + 1) else none

/-- Target column: (Next_Day_Return > 0).astype(int).  A NaN return compares
false against 0, so an undefined next-day return yields 0, never a null. -/
def targetAt (c : List ℚ) (i : ℕ) : ℤ :=
  match nextDayReturn c i with
  | some r => if 0 < r then 1 else 0
  | none => 0

/-- Volume_MA column: 20-bar rolling mean of volume. -/
def volMAAt (v : List ℚ) (i : ℕ) : Option ℚ := rollMean (volAt v) 20 i

/-- Volume_Ratio column: volume / Volume_MA followed by fillna(1.0), so a null
mean becomes the neutral value 1.  (In the source a zero mean under a nonzero
volume would give an IEEE infinity; with a zero volume it gives NaN, hence 1.
We return 1 for a zero mean, which agrees on every series whose window volumes
are not identically zero against a nonzero current volume.) -/
def volumeRatioAt (v : List ℚ) (i : ℕ) : ℚ :=
  match volMAAt v i with
  | none => 1
  | some m => if m = 0 then 1 else volAt v i / m

/-- The feature vector of row i in the order of self.feature_columns after
prepare_features: [RSI, MACD, Volume_Ratio, MA20, MA50, Price_Change,
MACD_Histogram].  Columns that are total floats are wrapped in some. -/
def featureRow (c v : List ℚ) (i : ℕ) : List (Option ℚ) :=
  [calculate_rsi c i, some (macd c i), some (volumeRatioAt v i),
   ma20 c i, ma50 c i, pctChange c i, some (macdHistogram c i)]

/-- A row survives dropna over feature_columns + Target exactly when every
feature is non-null: the Target column is an int column and is never null. -/
def rowClean (c v : List ℚ) (i : ℕ) : Bool :=
  (featureRow c v i).all Option.isSome

/-- Indices of the rows of clean_data in train_model (src/ml_model.py 42). -/
def cleanIndices (c v : List ℚ) : List ℕ :=
  (List.range c.length).filter (fun i => rowClean c v i)

/- ## Signals and backtester (src/strategy.py, TradingStrategy.backtest) -/

inductive SignalKind
  | buy
  | sell
deriving DecidableEq

/-- A signal record as built by generate_signals; only kind, price and date
are read by the backtest loop. -/
structure Signal where
  kind : SignalKind
  price : ℚ
  date : ℕ
deriving DecidableEq

/-- The open-position record of the backtest loop.  The quantity is the
integer value of the whole-number float produced by the floor division. -/
structure Position where
  entry_date : ℕ
  entry_price : ℚ
  quantity : Option ℤ
deriving DecidableEq

/-- A closed trade appended by the backtest loop on a SELL. -/
structure Trade where
  entry_date : ℕ
  exit_date : ℕ
  entry_price : ℚ
  exit_price : ℚ
  quantity : Option ℤ
  pnl : Option ℚ
  return_pct : Option ℚ
deriving DecidableEq

/-- self.portfolio_value // signal.price (src/strategy.py 63): float floor
division, rounding toward negative infinity.  A zero price gives a
non-numeric result (numpy warns and yields an infinity or NaN, it does not
raise), modelled as none; a non-numeric capital propagates. -/
def quantityOf (capital : Option ℚ) (price : ℚ) : Option ℤ :=
  match capital with
  | none => none
  | some cap => if price = 0 then none else some (Rat.floor (cap / price))

/-- The mutable state of TradingStrategy.backtest: the trade list, the single
current_position slot and the running portfolio value. -/
structure BTState where
  trades : List Trade
  current_position : Option Position
  portfolio_value : Option ℚ
deriving DecidableEq

/-- The trade record built when a SELL closes position p at signal s
(src/strategy.py 66-79).  pnl = (exit - entry) * quantity; return_pct divides
by the entry price, non-numeric when that price is zero. -/
def mkTrade (p : Position) (s : Signal) : Trade :=
  { entry_date := p.entry_date
    exit_date := s.date
    entry_price := p.entry_price
    exit_price := s.price
    quantity := p.quantity
    pnl := p.quantity.map (fun q => (s.price - p.entry_price) * (q : ℚ))
    return_pct :=
      if p.entry_price = 0 then none
      else some ((s.price - p.entry_price) / p.entry_price * 100) }

/-- One iteration of the signal loop of backtest (src/strategy.py 57-82):
a BUY with no open position opens one; a SELL with an open position closes it
into a trade and adds the pnl to the portfolio value; anything else is a
no-op. -/
def backtestStep (st : BTState) (s : Signal) : BTState :=
  match s.kind, st.current_position with
  | SignalKind.buy, none =>
      { st with current_position :=
          (some { entry_date := s.date, entry_price := s.price,
                  quantity := quantityOf st.portfolio_value s.price }) }
  | SignalKind.sell, some p =>
      let t := mkTrade p s
      { trades := st.trades ++ [t]
        current_position := none
        portfolio_value :=
          match st.portfolio_value, t.pnl with
          | some cap, some g => some (cap + g)
          | _, _ => none }
  | _, _ => st

/-- The state at entry to the signal loop: no trades, no open position, the
default starting capital of 100000. -/
def initState : BTState :=
  { trades := [], current_position := none, portfolio_value := some 100000 }

/-- The backtest signal loop: fold the signal list through backtestStep. -/
def backtestSignals (signals : List Signal) : BTState :=
  signals.foldl backtestStep initState

/- ## Metrics aggregator (src/strategy.py, TradingStrategy.calculate_metrics) -/

/-- Cumulative pnl after trade i (np.cumsum of the pnl list). -/
def cumPnl (pnls : List ℚ) (i : ℕ) : ℚ :=
  (pnls.take (i + 1)).foldl (fun a b => a + b) 0

/-- Running peak of the cumulative pnl (np.maximum.accumulate). -/
def peakPnl (pnls : List ℚ) : ℕ → ℚ
  | 0 => cumPnl pnls 0
  | n + 1 => max (peakPnl pnls n) (cumPnl pnls (n + 1))

/-- drawdown = (cumulative - peak) / peak * 100 (src/strategy.py 105), written
without a zero guard: a zero running peak makes the entry the non-numeric
0/0 or x/0 (none). -/
def drawdownAt (pnls : List ℚ) (i : ℕ) : Option ℚ :=
  if peakPnl pnls i = 0 then none
  else some ((cumPnl pnls i - peakPnl pnls i) / peakPnl pnls i * 100)

/-- The drawdown vector over the whole trade list. -/
def drawdownList (pnls : List ℚ) : List (Option ℚ) :=
  (List.range pnls.length).map (drawdownAt pnls)

/-- The drawdown entry as claim C2 words it: (cumulative - peak)/peak * 100
with the division guarded so that a zero running peak yields 0. -/
def drawdownSpecAt (pnls : List ℚ) (i : ℕ) : ℚ :=
  if peakPnl pnls i = 0 then 0
  else (cumPnl pnls i - peakPnl pnls i) / peakPnl pnls i * 100

/-- max_drawdown = np.min(drawdown) if len(drawdown) > 0 else 0, inside the
non-empty branch; the empty trade list takes the early all-zero return.
np.min propagates a non-numeric entry. -/
def max_drawdown (pnls : List ℚ) : Option ℚ :=
  if pnls.isEmpty then some 0
  else if (drawdownList pnls).all Option.isSome then
    match (drawdownList pnls).filterMap id with
    | [] => some 0
    | x :: xs => some (xs.foldl min x)
  else none

/-- calculate_metrics (src/strategy.py 87-116) over the (pnl, return_pct)
pairs of the trade list, modelled as the returned dict: a key/value list.
The empty branch returns five keys; the non-empty branch returns seven. -/
def calculate_metrics (trades : List (ℚ × ℚ)) : List (String × Option ℚ) :=
  if trades = [] then
    [("total_trades", some 0), ("win_rate", some 0), ("total_pnl", some 0),
     ("avg_return", some 0), ("max_drawdown", some 0)]
  else
    let pnls := trades.map Prod.fst
    let total_trades : ℚ := (trades.length : ℚ)
    let winning : ℚ := ((trades.filter (fun t => 0 < t.fst)).length : ℚ)
    [("total_trades", some total_trades),
     ("win_rate", some (winning / total_trades * 100)),
     ("total_pnl", some (pnls.foldl (fun a b => a + b) 0)),
     ("avg_return", some (((trades.map Prod.snd).foldl (fun a b => a + b) 0) / total_trades)),
     ("max_drawdown", max_drawdown pnls),
     ("winning_trades", some winning),
     ("losing_trades", some (total_trades - winning))]

/- ## Classifier wrapper state (src/ml_model.py, MLPredictor.train_model) -/

inductive ModelKind
  | decisionTree
  | logisticRegression
  | randomForest
deriving DecidableEq

/-- The classifier object held in self.model: either a freshly constructed,
not yet fitted sklearn estimator, or one fitted during training run r. -/
inductive FittedState
  | unfitted (kind : ModelKind)
  | fitted (kind : ModelKind) (run : ℕ)
deriving DecidableEq

/-- The StandardScaler held in self.scaler: the fresh scaler from __init__,
one fitted during training run r, or one whose fitted state was reset by a
fit_transform call that then raised (sklearn fit clears the previous fitted
attributes before validating the new data). -/
inductive ScalerState
  | fresh
  | fitted (run : ℕ)
  | reset
deriving DecidableEq

/-- The feature_columns list assigned by __init__ (src/ml_model.py 18). -/
def initFeatureColumns : List String :=
  ["RSI", "MACD", "Volume", "MA20", "MA50", "BB_Upper", "BB_Lower"]

/-- The feature_columns list prepare_features reassigns on every call
(src/ml_model.py 33-34). -/
def preparedFeatureColumns : List String :=
  ["RSI", "MACD", "Volume_Ratio", "MA20", "MA50", "Price_Change",
   "MACD_Histogram"]

/-- The fields of MLPredictor that train_model may write: the classifier
slot self.model, the scaler self.scaler, the feature-column list
self.feature_columns rewritten by prepare_features, and the recorded
accuracy. -/
structure MLPredictor where
  model_type : ModelKind
  model : Option FittedState
  scaler : ScalerState
  feature_columns : List String
  accuracy : ℚ
deriving DecidableEq

/-- train_model (src/ml_model.py 38-85).  The body is one try/except that
returns false on any exception.  Control flow, in source order:
prepare_features reassigns self.feature_columns before anything else (line
40 via lines 33-34); clean_data is built and the call fails when fewer than
50 rows remain (lines 42-46, with feature_columns already rewritten);
train_test_split runs (splitOk) - raising there leaves scaler and model
untouched; self.scaler.fit_transform refits the scaler on the new train
split (line 55, scalerOk) - raising there leaves the scaler reset, its
previous fitted state destroyed, with the model untouched; a fresh estimator
is assigned to self.model (lines 58-67); the external fit/predict/score
calls run (fitOk) - an exception there is caught after self.model has
already been replaced and the scaler refit.  self.accuracy is written only
on full success (line 76).  run tags the training run; acc is the held-out
accuracy score the external scorer would return. -/
def train_model (st : MLPredictor) (c v : List ℚ) (run : ℕ)
    (splitOk scalerOk fitOk : Bool) (acc : ℚ) : Bool × MLPredictor :=
  let st0 : MLPredictor := { st with feature_columns := preparedFeatureColumns }
  if (cleanIndices c v).length < 50 then (false, st0)
  else if splitOk = false then (false, st0)
  else if scalerOk = false then (false, { st0 with scaler := ScalerState.reset })
  else
    let assigned : MLPredictor :=
      { st0 with
        scaler := (ScalerState.fitted run)
        model := (some (FittedState.unfitted st.model_type)) }
    if fitOk then
      (true,
       { assigned with
         model := (some (FittedState.fitted st.model_type run))
         accuracy := acc })
    else (false, assigned)

/- ## Frame aliasing effects (src/utils.py 33-38, src/ml_model.py 21-36) -/

/-- The observable effect of passing a data frame into a routine: the column
list of the object the caller handed over as it stands after the call, the
column list of the returned frame, and whether the returned frame is the very
object the caller passed. -/
structure FrameEffect where
  caller_columns : List String
  returned_columns : List String
  same_object : Bool
deriving DecidableEq

/-- The columns add_technical_indicators assigns, in assignment order. -/
def indicatorColumns : List String :=
  ["RSI", "MACD", "MACD_Signal", "MACD_Histogram", "MA20", "MA50",
   "BB_Upper", "BB_Middle", "BB_Lower"]

/-- add_technical_indicators (src/utils.py 33-38): each statement is
data[col] = ..., a pandas in-place column insertion on the frame the caller
passed, and the function returns that same frame - no copy is taken. -/
def add_technical_indicators_effect (cols : List String) : FrameEffect :=
  { caller_columns := cols ++ indicatorColumns
    returned_columns := cols ++ indicatorColumns
    same_object := true }

/-- The effect claim C9 describes: an augmented copy is returned and the
caller's frame is left unchanged. -/
def indicator_effect_spec (cols : List String) : FrameEffect :=
  { caller_columns := cols
    returned_columns := cols ++ indicatorColumns
    same_object := false }

/-- The extra columns prepare_features assigns after re-deriving the
indicators, in assignment order (src/ml_model.py 24-31). -/
def featurePipelineColumns : List String :=
  ["Next_Day_Return", "Target", "Price_Change", "Volume_MA", "Volume_Ratio"]

/-- prepare_features (src/ml_model.py 21-36): calls add_technical_indicators
on the caller's frame, then assigns its own columns the same in-place way,
and returns the same object. -/
def prepare_features_effect (cols : List String) : FrameEffect :=
  let e := add_technical_indicators_effect cols
  { caller_columns := e.caller_columns ++ featurePipelineColumns
    returned_columns := e.returned_columns ++ featurePipelineColumns
    same_object := e.same_object }

/- ## Concrete series used by the counterexamples and witnesses -/

/-- A 50-bar strictly increasing close series 1, 2, ..., 50. -/
def ex50c : List ℚ := (List.range 50).map (fun i => ((i : ℚ) + 1))

/-- Unit volumes for the 50-bar series. -/
def ex50v : List ℚ := List.replicate 50 1

/-- A 110-bar strictly increasing close series 1, 2, ..., 110: long enough
that more than 50 rows survive the feature/label dropna. -/
def ex110c : List ℚ := (List.range 110).map (fun i => ((i : ℚ) + 1))

/-- Unit volumes for the 110-bar series. -/
def ex110v : List ℚ := List.replicate 110 1

/-- A predictor as left by an earlier successful training run 1: a fitted
model, a fitted scaler, the prepared feature-column list and a recorded
accuracy. -/
def mlBefore : MLPredictor :=
  { model_type := ModelKind.decisionTree
    model := (some (FittedState.fitted ModelKind.decisionTree 1))
    scaler := (ScalerState.fitted 1)
    feature_columns := preparedFeatureColumns
    accuracy := 3 / 5 }

/-- The predictor state __init__ builds: no model, a fresh scaler, the
initial feature-column list and accuracy 0 (src/ml_model.py 14-19). -/
def mlInit : MLPredictor :=
  { model_type := ModelKind.decisionTree
    model := none
    scaler := ScalerState.fresh
    feature_columns := initFeatureColumns
    accuracy := 0 }

/- ## Theorems -/

/-- C1: the backtest signal loop keeps at most one position open at any time:
its single current_position slot evolves as the FLAT/LONG state machine - a
BUY opens a position only when none is open, a SELL closes the open position
into exactly one appended Trade and returns to FLAT, a BUY while a position is
open is a no-op and a SELL while flat is a no-op; the sequences
[BUY, BUY, SELL] and [SELL, BUY, SELL] each yield exactly one Trade, and a
position still open at the end of the list contributes no Trade. -/
theorem backtester_state_machine :
    (∀ (st : BTState) (s : Signal),
      ((backtestStep st s).current_position, (backtestStep st s).trades.length) =
        (match s.kind, st.current_position with
         | SignalKind.buy, none =>
             ((some { entry_date := s.date, entry_price := s.price,
                      quantity := quantityOf st.portfolio_value s.price }),
              st.trades.length)
         | SignalKind.sell, some _ => (none, st.trades.length + 1)
         | SignalKind.buy, some p => ((some p), st.trades.length)
         | SignalKind.sell, none => (none, st.trades.length))) ∧
    (∀ (p1 p2 p3 : ℚ) (d1 d2 d3 : ℕ),
      (backtestSignals [{ kind := SignalKind.buy, price := p1, date := d1 },
                        { kind := SignalKind.buy, price := p2, date := d2 },
                        { kind := SignalKind.sell, price := p3, date := d3 }]).trades.length = 1 ∧
      (backtestSignals [{ kind := SignalKind.sell, price := p1, date := d1 },
                        { kind := SignalKind.buy, price := p2, date := d2 },
                        { kind := SignalKind.sell, price := p3, date := d3 }]).trades.length = 1) ∧
    (∀ (p : ℚ) (d : ℕ),
      (backtestSignals [{ kind := SignalKind.buy, price := p, date := d }]).trades = [] ∧
      (backtestSignals [{ kind := SignalKind.buy, price := p, date := d }]).current_position.isSome = true) := by
  refine ⟨?_, ?_, ?_⟩
  · intro st s
    rcases st with ⟨tr, pos, pv⟩
    rcases s with ⟨k, price, date⟩
    cases k <;> cases pos <;> simp [backtestStep]
  · intro p1 p2 p3 d1 d2 d3
    constructor <;> simp [backtestSignals, initState, backtestStep]
  · intro p d
    constructor <;> simp [backtestSignals, initState, backtestStep]

/-- C3: counterexample to the claim that the quantity computation is guarded.
At a zero signal price the floor division 100000 // 0 yields a non-numeric
value, not the claimed quantity 0, and the BUY still opens a position
carrying it; at a negative price the floor division rounds toward negative
infinity (-14286), not toward zero (-14285). -/
theorem quantity_zero_price_counterexample :
    quantityOf (some 100000) 0 = none ∧
    quantityOf (some 100000) 0 ≠ some 0 ∧
    quantityOf (some 100000) (-7) = some (-14286) ∧
    (backtestStep initState { kind := SignalKind.buy, price := 0, date := 0 }).current_position =
      some { entry_date := 0, entry_price := 0, quantity := none } := by
  have hf : Rat.floor ((100000 : ℚ) / -7) = -14286 := by with_unfolding_all decide
  refine ⟨by simp [quantityOf], by simp [quantityOf], ?_, ?_⟩
  · have hq : quantityOf (some 100000) (-7) = some (Rat.floor ((100000 : ℚ) / -7)) := by
      norm_num [quantityOf]
    rw [hq, hf]
  · simp [backtestStep, initState, quantityOf]

/-- C3 (amended): for every BUY accepted while no position is open with a
nonzero signal price, the opened quantity is the floor (toward negative
infinity) of capital divided by price; a zero price yields a non-numeric
quantity with the position opened regardless, and a zero capital yields
quantity 0 with the position likewise opened. -/
theorem quantity_floor_amended (cap p : ℚ) (d : ℕ) (tr : List Trade) (h : p ≠ 0) :
    quantityOf (some cap) p = some (Rat.floor (cap / p)) ∧
    (backtestStep { trades := tr, current_position := none, portfolio_value := some cap }
        { kind := SignalKind.buy, price := p, date := d }).current_position =
      some { entry_date := d, entry_price := p,
             quantity := some (Rat.floor (cap / p)) } := by
  constructor
  · simp [quantityOf, h]
  · simp [backtestStep, quantityOf, h]

/-- C3 witness: at capital 100000 and price 7 the amended theorem gives the
truncated share count 14285. -/
theorem quantity_floor_amended_witness :
    quantityOf (some 100000) 7 = some 14285 := by
  have hf : Rat.floor ((100000 : ℚ) / 7) = 14285 := by with_unfolding_all decide
  have h := (quantity_floor_amended 100000 7 0 [] (by norm_num)).1
  rw [h, hf]

/-- C7: whenever a bar has a full RSI window whose trailing average loss is 0
and whose trailing average gain is positive, the computed RSI is exactly 100:
the infinite RS ratio saturates instead of faulting. -/
theorem rsi_saturates_all_gains (c : List ℚ) (i : ℕ) (g : ℚ) (hi : i < c.length)
    (hgain : avgGain c i = some g) (hpos : 0 < g) (hloss : avgLoss c i = some 0) :
    calculate_rsi c i = some 100 := by
  simp [calculate_rsi, hgain, hloss, hpos.ne']

/-- C7 witness: on the strictly increasing 14-bar series 1..14 at index 13 the
average loss is 0, the average gain is 13/14, and the RSI is 100. -/
theorem rsi_saturates_all_gains_witness :
    calculate_rsi [(1 : ℚ), 2, 3, 4, 5, 6, 7, 8, 9, 10, 11, 12, 13, 14] 13 = some 100 :=
  rsi_saturates_all_gains [(1 : ℚ), 2, 3, 4, 5, 6, 7, 8, 9, 10, 11, 12, 13, 14] 13 (13 / 14)
    (by with_unfolding_all decide) (by with_unfolding_all decide)
    (by with_unfolding_all decide) (by with_unfolding_all decide)

/-- C10: whenever a bar has a full RSI window in which the trailing average
gain and average loss are both 0 (every delta in the window is zero), the
computed RSI is null - the 0/0 ratio produces no value. -/
theorem rsi_flat_window_none (c : List ℚ) (i : ℕ) (hi : i < c.length)
    (hgain : avgGain c i = some 0) (hloss : avgLoss c i = some 0) :
    calculate_rsi c i = none := by
  simp [calculate_rsi, hgain, hloss]

/-- C10 witness: on the constant 14-bar series of closes 7 at index 13 both
averages are 0 and the RSI is null. -/
theorem rsi_flat_window_none_witness :
    calculate_rsi (List.replicate 14 (7 : ℚ)) 13 = none :=
  rsi_flat_window_none (List.replicate 14 (7 : ℚ)) 13
    (by with_unfolding_all decide) (by with_unfolding_all decide)
    (by with_unfolding_all decide)

/-- C4: counterexample to the claim that RSI is non-null at every index at or
past period-1.  On the constant 14-bar series of closes 5, index 13 has a
full window (13 is at least period-1 = 13) yet the RSI is null, because both
rolling averages are 0 and rs is the non-numeric 0/0. -/
theorem rsi_warmup_counterexample :
    (List.replicate 14 (5 : ℚ)).length = 14 ∧
    14 - 1 ≤ 13 ∧
    calculate_rsi (List.replicate 14 (5 : ℚ)) 13 = none := by
  refine ⟨by simp, by omega, ?_⟩
  with_unfolding_all decide

/-- C4 (amended): MA20 and MA50 are null exactly for the first period-1 bars
and defined from index period-1 on; RSI is null for indices below 13, and at
index 13 or later it is defined exactly when the window is not flat - when
the trailing average gain and average loss are both 0 the RSI is null despite
full history. -/
theorem indicator_warmup_amended (c : List ℚ) (i : ℕ) (hi : i < c.length) :
    ((ma20 c i).isSome = true ↔ 19 ≤ i) ∧
    ((ma50 c i).isSome = true ↔ 49 ≤ i) ∧
    (i < 13 → calculate_rsi c i = none) ∧
    (13 ≤ i → ((calculate_rsi c i = none) ↔
                 (avgGain c i = some 0 ∧ avgLoss c i = some 0))) := by
  refine ⟨?_, ?_, ?_, ?_⟩
  · simp only [ma20, maAt, rollMean]
    split
    · simp
      omega
    · simp
      omega
  · simp only [ma50, maAt, rollMean]
    split
    · simp
      omega
    · simp
      omega
  · intro h
    have hg : avgGain c i = none := by
      simp only [avgGain, rollMean]
      rw [if_neg (by omega)]
    have hl : avgLoss c i = none := by
      simp only [avgLoss, rollMean]
      rw [if_neg (by omega)]
    simp [calculate_rsi, hg, hl]
  · intro h13
    have hg : avgGain c i =
        some (((List.range 14).foldl (fun acc j => acc + gainAt c (i + 1 - 14 + j)) 0) / (14 : ℚ)) := by
      simp only [avgGain, rollMean]
      rw [if_pos (by omega)]
      norm_num
    have hl : avgLoss c i =
        some (((List.range 14).foldl (fun acc j => acc + lossAt c (i + 1 - 14 + j)) 0) / (14 : ℚ)) := by
      simp only [avgLoss, rollMean]
      rw [if_pos (by omega)]
      norm_num
    rw [calculate_rsi.eq_def, hg, hl]
    simp only [Option.some.injEq]
    split_ifs with h1 h2 <;> simp_all

/-- C4 witness: on the strictly increasing 14-bar series 1..14 at index 13,
the amended theorem applies: MA20 is still null (19 is not at or below 13)
and the RSI is defined because the window is not flat. -/
theorem indicator_warmup_amended_witness :
    ((ma20 [(1 : ℚ), 2, 3, 4, 5, 6, 7, 8, 9, 10, 11, 12, 13, 14] 13).isSome = true ↔ 19 ≤ 13) ∧
    ((calculate_rsi [(1 : ℚ), 2, 3, 4, 5, 6, 7, 8, 9, 10, 11, 12, 13, 14] 13 = none) ↔
       (avgGain [(1 : ℚ), 2, 3, 4, 5, 6, 7, 8, 9, 10, 11, 12, 13, 14] 13 = some 0 ∧
        avgLoss [(1 : ℚ), 2, 3, 4, 5, 6, 7, 8, 9, 10, 11, 12, 13, 14] 13 = some 0)) := by
  have h := indicator_warmup_amended [(1 : ℚ), 2, 3, 4, 5, 6, 7, 8, 9, 10, 11, 12, 13, 14] 13
    (by simp)
  exact ⟨h.1, h.2.2.2 (by omega)⟩

/-- Helper: inside the non-empty branch, max_drawdown is none exactly when
some drawdown entry is non-numeric. -/
theorem max_drawdown_none_iff_not_all (pnls : List ℚ) (hne : pnls ≠ []) :
    (max_drawdown pnls = none) ↔
      ¬ ((drawdownList pnls).all Option.isSome = true) := by
  have hne' : pnls.isEmpty = false := by
    cases pnls
    · exact absurd rfl hne
    · rfl
  rw [max_drawdown, hne']
  simp only [Bool.false_eq_true, if_false]
  by_cases hall : (drawdownList pnls).all Option.isSome = true
  · rw [if_pos hall]
    cases h : (drawdownList pnls).filterMap id <;> simp [hall]
  · rw [if_neg hall]
    simp [hall]

/-- C2: counterexample to the claim that the drawdown division is guarded.
On the single-trade list with pnl 0 the running peak is 0, and the code's
drawdown entry is the non-numeric 0/0 (not the claimed 0 percent); np.min
propagates it into max_drawdown. -/
theorem metrics_drawdown_zero_peak_counterexample :
    drawdownAt [(0 : ℚ)] 0 = none ∧
    drawdownSpecAt [(0 : ℚ)] 0 = 0 ∧
    drawdownAt [(0 : ℚ)] 0 ≠ some (drawdownSpecAt [(0 : ℚ)] 0) ∧
    max_drawdown [(0 : ℚ)] = none := by
  refine ⟨?_, ?_, ?_, ?_⟩ <;> with_unfolding_all decide

/-- C2 (amended): the drawdown at each prefix equals
(cumulative - peak)/peak * 100 whenever the running peak is nonzero, but a
zero running peak yields an undefined non-numeric entry, not 0 percent;
max_drawdown of a non-empty list is undefined exactly when some prefix peak
is zero, and the empty trade list yields max_drawdown 0. -/
theorem metrics_drawdown_amended (pnls : List ℚ) (i : ℕ) (hne : pnls ≠ [])
    (hi : i < pnls.length) :
    (peakPnl pnls i ≠ 0 →
      drawdownAt pnls i =
        some ((cumPnl pnls i - peakPnl pnls i) / peakPnl pnls i * 100)) ∧
    (peakPnl pnls i = 0 → drawdownAt pnls i = none) ∧
    ((max_drawdown pnls = none) ↔ ∃ j, j < pnls.length ∧ peakPnl pnls j = 0) ∧
    max_drawdown [] = some 0 := by
  refine ⟨?_, ?_, ?_, ?_⟩
  · intro h
    simp [drawdownAt, h]
  · intro h
    simp [drawdownAt, h]
  · rw [max_drawdown_none_iff_not_all pnls hne]
    simp only [List.all_eq_true, drawdownList, List.mem_map, List.mem_range]
    constructor
    · intro h
      push_neg at h
      obtain ⟨o, ⟨j, hj, ho⟩, hns⟩ := h
      refine ⟨j, hj, ?_⟩
      by_contra hp
      rw [← ho] at hns
      simp [drawdownAt, hp] at hns
    · rintro ⟨j, hj, hp⟩ h
      have := h (drawdownAt pnls j) ⟨j, hj, rfl⟩
      simp [drawdownAt, hp] at this
  · rw [max_drawdown]
    rfl

/-- C2 witness: on the trade list with pnls [1, -1] at index 1 the running
peak is 1, and the amended theorem gives the drawdown (0 - 1)/1 * 100 = -100. -/
theorem metrics_drawdown_amended_witness :
    drawdownAt [(1 : ℚ), -1] 1 = some (-100) := by
  have h := (metrics_drawdown_amended [(1 : ℚ), -1] 1 (by simp) (by simp)).1
    (by with_unfolding_all decide)
  rw [h]
  with_unfolding_all decide

/-- C5: counterexample to the claim that every count of the Metrics record is
0 for the empty trade list: the empty-case dict carries no winning_trades or
losing_trades key at all (those keys exist only in the non-empty branch), so
their lookup is absent rather than 0. -/
theorem metrics_empty_counterexample :
    List.lookup "winning_trades" (calculate_metrics []) = none ∧
    List.lookup "losing_trades" (calculate_metrics []) = none ∧
    List.lookup "winning_trades" (calculate_metrics []) ≠ some (some 0) := by
  refine ⟨?_, ?_, ?_⟩ <;> with_unfolding_all decide

/-- C5 (amended): for the empty trade list the metrics computation returns,
with no division fault, a record whose five keys total_trades, win_rate,
total_pnl, avg_return and max_drawdown are all 0; winning_trades and
losing_trades are omitted from the empty-case record. -/
theorem metrics_empty_amended :
    calculate_metrics [] =
      [("total_trades", some 0), ("win_rate", some 0), ("total_pnl", some 0),
       ("avg_return", some 0), ("max_drawdown", some 0)] ∧
    List.lookup "total_trades" (calculate_metrics []) = some (some 0) ∧
    List.lookup "win_rate" (calculate_metrics []) = some (some 0) ∧
    List.lookup "total_pnl" (calculate_metrics []) = some (some 0) ∧
    List.lookup "avg_return" (calculate_metrics []) = some (some 0) ∧
    List.lookup "max_drawdown" (calculate_metrics []) = some (some 0) := by
  refine ⟨?_, ?_, ?_, ?_, ?_, ?_⟩ <;> with_unfolding_all decide

/-- C6: the feature/label pipeline retains the final row instead of dropping
it.  On the 50-bar series of closes 1..50 with unit volumes the final row 49
has an undefined Next_Day_Return, yet its Target is coerced to 0 - the NaN
comparison NaN > 0 is false and astype(int) turns it into the integer 0, not
a null - and every feature of row 49 is non-null, so row 49 survives the
dropna and enters training with a fabricated label. -/
theorem final_row_retained_with_zero_target :
    nextDayReturn ex50c 49 = none ∧
    targetAt ex50c 49 = 0 ∧
    rowClean ex50c ex50v 49 = true ∧
    49 ∈ cleanIndices ex50c ex50v := by
  refine ⟨?_, ?_, ?_, ?_⟩ <;> with_unfolding_all decide

/-- C9: counterexample to the claim that the Indicator Engine never mutates
the caller's frame: add_technical_indicators assigns its columns on the very
frame object the caller passed and returns that same object, so after the
call the caller's frame carries the indicator columns. -/
theorem indicator_mutation_counterexample :
    (add_technical_indicators_effect ["Open", "High", "Low", "Close", "Volume"]).caller_columns ≠
      ["Open", "High", "Low", "Close", "Volume"] ∧
    (add_technical_indicators_effect ["Open", "High", "Low", "Close", "Volume"]).same_object = true ∧
    add_technical_indicators_effect ["Open", "High", "Low", "Close", "Volume"] ≠
      indicator_effect_spec ["Open", "High", "Low", "Close", "Volume"] := by
  refine ⟨?_, ?_, ?_⟩ <;> with_unfolding_all decide

/-- C9 (amended): add_technical_indicators augments the caller's frame in
place with the nine indicator columns and returns that same object rather
than a copy, and prepare_features further appends its five derived columns to
the caller's frame the same way, both inside signal generation and feature
preparation. -/
theorem indicator_effect_amended (cols : List String) :
    (add_technical_indicators_effect cols).caller_columns = cols ++ indicatorColumns ∧
    (add_technical_indicators_effect cols).returned_columns = cols ++ indicatorColumns ∧
    (add_technical_indicators_effect cols).same_object = true ∧
    (prepare_features_effect cols).caller_columns =
      cols ++ indicatorColumns ++ featurePipelineColumns ∧
    (prepare_features_effect cols).returned_columns =
      cols ++ indicatorColumns ++ featurePipelineColumns ∧
    (prepare_features_effect cols).same_object = true := by
  refine ⟨rfl, rfl, rfl, ?_, ?_, rfl⟩ <;>
    simp [prepare_features_effect, add_technical_indicators_effect]

/-- C8: counterexample to the claim that every failed train call leaves the
previous model unaffected.  On the 110-bar series 61 rows survive the dropna,
so training proceeds past the 50-row check; the fresh classifier is assigned
to self.model and the scaler is refit before the external fit runs, so when
the fit raises (fitOk false) the caught exception returns failure with the
prior fitted model already replaced by the unfitted fresh estimator and the
scaler already refit on the new data.  Only the recorded accuracy survives. -/
theorem train_failure_clobbers_model :
    (train_model mlBefore ex110c ex110v 2 true true false (4 / 5)) =
      (false,
       { model_type := ModelKind.decisionTree
         model := (some (FittedState.unfitted ModelKind.decisionTree))
         scaler := (ScalerState.fitted 2)
         feature_columns := preparedFeatureColumns
         accuracy := 3 / 5 }) ∧
    mlBefore.model = some (FittedState.fitted ModelKind.decisionTree 1) ∧
    (train_model mlBefore ex110c ex110v 2 true true false (4 / 5)).snd.model ≠ mlBefore.model ∧
    (train_model mlBefore ex110c ex110v 2 true true false (4 / 5)).snd.scaler ≠ mlBefore.scaler := by
  have hlen : ¬ ((cleanIndices ex110c ex110v).length < 50) := by
    with_unfolding_all decide
  refine ⟨?_, rfl, ?_, ?_⟩
  · simp only [train_model]
    rw [if_neg hlen]
    rfl
  · simp only [train_model]
    rw [if_neg hlen]
    simp [mlBefore]
  · simp only [train_model]
    rw [if_neg hlen]
    simp [mlBefore]

/-- C8 (amended): every failed training run preserves the recorded accuracy,
and rewrites self.feature_columns to the prepared list before the 50-row
check ever runs; a failure at the under-50-usable-rows check or inside
train_test_split leaves everything else - in particular the prior model and
the fitted scaler - unchanged; a failure inside scaler.fit_transform leaves
the model untouched but the previously fitted scaler reset; and a failure
during the classifier fit/scoring occurs after self.model has been
reassigned and the scaler refit, leaving the fresh unfitted classifier in
place of the previous model. -/
theorem train_failure_amended (st : MLPredictor) (c v : List ℚ) (r : ℕ)
    (splitOk scalerOk fitOk : Bool) (acc : ℚ)
    (hfail : (train_model st c v r splitOk scalerOk fitOk acc).fst = false) :
    (train_model st c v r splitOk scalerOk fitOk acc).snd.accuracy = st.accuracy ∧
    (train_model st c v r splitOk scalerOk fitOk acc).snd.feature_columns =
      preparedFeatureColumns ∧
    (((cleanIndices c v).length < 50 ∨ splitOk = false) →
       (train_model st c v r splitOk scalerOk fitOk acc).snd =
         { st with feature_columns := preparedFeatureColumns }) ∧
    (¬ ((cleanIndices c v).length < 50) → splitOk = true → scalerOk = false →
       (train_model st c v r splitOk scalerOk fitOk acc).snd =
         { st with
           feature_columns := preparedFeatureColumns
           scaler := ScalerState.reset }) ∧
    (¬ ((cleanIndices c v).length < 50) → splitOk = true → scalerOk = true →
       (train_model st c v r splitOk scalerOk fitOk acc).snd =
         { st with
           feature_columns := preparedFeatureColumns
           scaler := (ScalerState.fitted r)
           model := (some (FittedState.unfitted st.model_type)) }) := by
  simp only [train_model] at hfail ⊢
  split_ifs at hfail ⊢ with h1 h2 h3 <;> simp_all

/-- C8 witness: on the empty series the dropna leaves 0 usable rows and
training fails at the 50-row check; the amended theorem applies to the
freshly initialised predictor and shows the failure leaves its model, scaler
and accuracy unchanged while its feature_columns list has already been
rewritten to the prepared one. -/
theorem train_failure_amended_witness :
    (train_model mlInit [] [] 1 true true true 0).snd =
      { mlInit with feature_columns := preparedFeatureColumns } := by
  have h := train_failure_amended mlInit [] [] 1 true true true 0
    (by with_unfolding_all decide)
  exact h.2.2.1 (Or.inl (by with_unfolding_all decide))
